import Mathlib

/-!
Shallow embedding of the core of `src/app.py` (environmental-monitor):
the evaluation engine (`evaluate_records` and its inner `classify` closure),
the persistence reconciler (`load_data`, `save_data`, `save_data_to_spaces`,
`load_data_from_spaces`) and the outside-conditions provider
(`fetch_outside_conditions`).

Numeric sensor values are modelled as `Option ℚ`: `none` plays the role of
pandas `NaN`/`NaT` (produced by `pd.to_numeric(..., errors := coerce)` and
`pd.to_datetime`), and every ordered comparison against a missing value is
`false`, exactly as every comparison with `NaN` is `False` in Python.
Timestamps are rational numbers measured in hours, so that the column
`delta_hours = (datetime - prev_time).dt.total_seconds() / 3600` becomes a
plain subtraction.
-/

namespace EnvMonitor

/-- Severity of a flag: the part after the `|` separator in the flag labels
built by `classify` (for example "Temp out of range|danger"). -/
inductive Severity where
  | warn
  | danger
deriving Repr, DecidableEq

/-- The flags appended by `classify` in `src/app.py`.  Each constructor is one
of the label templates; the rational payloads are the interpolated deltas
(the code formats them with one decimal inside the label string). -/
inductive Flag where
  | tempOutOfRange
  | rhOuterBand
  | rhOutOfRange
  | mouldRisk
  | tempDeltaOutside (delta : ℚ)
  | rhDeltaOutside (delta : ℚ)
  | tempDrift (delta : ℚ)
  | rhDrift (delta : ℚ)
deriving Repr, DecidableEq

/-- Severity attached to each flag label in `classify`. -/
def Flag.severity : Flag → Severity
  | .tempOutOfRange => .danger
  | .rhOuterBand => .warn
  | .rhOutOfRange => .danger
  | .mouldRisk => .danger
  | .tempDeltaOutside _ => .warn
  | .rhDeltaOutside _ => .warn
  | .tempDrift _ => .warn
  | .rhDrift _ => .warn

/-- The range-status classification of a record: `core`, `outer` or `out`. -/
inductive RangeStatus where
  | core
  | outer
  | out
deriving Repr, DecidableEq

/-- One row of the measurement log (schema of `empty_frame` in `src/app.py`):
columns `id, datetime, location, temp_c, rh, lux, uv, co2, outside_time,
outside_temp_c, outside_rh, outside_dew_point_c, notes`.  Numeric columns and
the timestamp are `Option ℚ` (missing/unparseable as `none`). -/
structure Measurement where
  id : String
  datetime : Option ℚ
  location : String
  temp_c : Option ℚ
  rh : Option ℚ
  lux : Option ℚ
  uv : Option ℚ
  co2 : Option ℚ
  outside_time : Option String
  outside_temp_c : Option ℚ
  outside_rh : Option ℚ
  outside_dew_point_c : Option ℚ
  notes : String
deriving Repr, DecidableEq

/-- A measurement together with the derived per-location columns added by
`evaluate_records` before classification: `prev_temp`, `prev_rh`, `prev_time`
(the location-partition shift by 1) and `delta_hours`. -/
structure Row extends Measurement where
  prev_temp : Option ℚ
  prev_rh : Option ℚ
  prev_time : Option ℚ
  delta_hours : Option ℚ
deriving Repr, DecidableEq

/-- A fully evaluated row: the annotated row plus the `range_status` and
`flags` columns produced by `classify`. -/
structure EvaluatedRow extends Row where
  range_status : RangeStatus
  flags : List Flag
deriving Repr, DecidableEq

/-- Temperature guideline: `GUIDELINES["temp"]` of `src/app.py`. -/
structure TempGuideline where
  min : ℚ
  max : ℚ
  delta : ℚ
deriving Repr, DecidableEq

/-- Humidity guideline: `GUIDELINES["rh"]` of `src/app.py`. -/
structure RhGuideline where
  core : ℚ × ℚ
  outer : ℚ × ℚ
  delta : ℚ
deriving Repr, DecidableEq

/-- The two guideline groups. -/
structure Guidelines where
  temp : TempGuideline
  rh : RhGuideline
deriving Repr, DecidableEq

/-- `GUIDELINES` of `src/app.py`:
temp min 15, max 25, delta 4; rh core (45,55), outer (40,60), delta 5. -/
def GUIDELINES : Guidelines :=
  { temp := { min := 15, max := 25, delta := 4 }
    rh := { core := (45, 55), outer := (40, 60), delta := 5 } }

/-- `OUTSIDE_TEMP_DELTA_WARN = 6.0` in `src/app.py`. -/
def OUTSIDE_TEMP_DELTA_WARN : ℚ := 6

/-- `OUTSIDE_RH_DELTA_WARN = 15.0` in `src/app.py`. -/
def OUTSIDE_RH_DELTA_WARN : ℚ := 15

/-- Strict `<` with pandas `NaN` semantics: any comparison involving a
missing value is `false`. -/
def oLt : Option ℚ → Option ℚ → Bool
  | some a, some b => decide (a < b)
  | _, _ => false

/-- Non-strict `≤` with pandas `NaN` semantics: any comparison involving a
missing value is `false`. -/
def oLe : Option ℚ → Option ℚ → Bool
  | some a, some b => decide (a ≤ b)
  | _, _ => false

/-- The temperature out-of-range condition of `classify`:
`row["temp_c"] < GUIDELINES["temp"]["min"] or row["temp_c"] > GUIDELINES["temp"]["max"]`. -/
def tempOutCond (row : Row) : Bool :=
  oLt row.temp_c (some GUIDELINES.temp.min) || oLt (some GUIDELINES.temp.max) row.temp_c

/-- First if-block of `classify`: temperature range check. -/
def tempStep (row : Row) (s : RangeStatus × List Flag) : RangeStatus × List Flag :=
  if tempOutCond row then (.out, s.2 ++ [.tempOutOfRange]) else s

/-- Second if-block of `classify`: humidity core/outer band check.
`rh_core_min, rh_core_max = GUIDELINES["rh"]["core"]` and
`rh_outer_min, rh_outer_max = GUIDELINES["rh"]["outer"]`. -/
def rhStep (row : Row) (s : RangeStatus × List Flag) : RangeStatus × List Flag :=
  if oLt row.rh (some GUIDELINES.rh.core.1) || oLt (some GUIDELINES.rh.core.2) row.rh then
    if oLe (some GUIDELINES.rh.outer.1) row.rh && oLe row.rh (some GUIDELINES.rh.outer.2) then
      (if s.1 ≠ .out then .outer else s.1, s.2 ++ [.rhOuterBand])
    else
      (.out, s.2 ++ [.rhOutOfRange])
  else s

/-- Third if-block of `classify`: `if row["rh"] >= 70` append mould risk. -/
def mouldStep (row : Row) (s : RangeStatus × List Flag) : RangeStatus × List Flag :=
  if oLe (some 70) row.rh then (s.1, s.2 ++ [.mouldRisk]) else s

/-- Fourth if-block of `classify`: temperature delta against the outside
snapshot.  When `outside_temp_c` is present but `temp_c` is missing, the
Python delta is `NaN` and the `abs(delta) > 6` comparison is `False`, so no
flag is appended; the catch-all branch mirrors that. -/
def outsideTempStep (row : Row) (s : RangeStatus × List Flag) : RangeStatus × List Flag :=
  match row.outside_temp_c, row.temp_c with
  | some o, some t =>
      if |t - o| > OUTSIDE_TEMP_DELTA_WARN then (s.1, s.2 ++ [.tempDeltaOutside (t - o)]) else s
  | _, _ => s

/-- Fifth if-block of `classify`: humidity delta against the outside
snapshot, analogous to `outsideTempStep`. -/
def outsideRhStep (row : Row) (s : RangeStatus × List Flag) : RangeStatus × List Flag :=
  match row.outside_rh, row.rh with
  | some o, some h =>
      if |h - o| > OUTSIDE_RH_DELTA_WARN then (s.1, s.2 ++ [.rhDeltaOutside (h - o)]) else s
  | _, _ => s

/-- Last if-block of `classify`: drift flags.  Mirrors
`if pd.notna(row["delta_hours"]) and row["delta_hours"] <= 24`, with
`temp_delta = abs(row["temp_c"] - row["prev_temp"]) if pd.notna(row["prev_temp"]) else 0`
(a missing `temp_c` with a present prior gives a `NaN` delta, hence no flag),
and the analogous `rh_delta`; each delta is compared strictly against the
guideline drift limit. -/
def driftStep (row : Row) (s : RangeStatus × List Flag) : RangeStatus × List Flag :=
  match row.delta_hours with
  | some d =>
      if d ≤ 24 then
        let temp_delta : Option ℚ :=
          match row.prev_temp with
          | some p => row.temp_c.map (fun t => |t - p|)
          | none => some 0
        let rh_delta : Option ℚ :=
          match row.prev_rh with
          | some p => row.rh.map (fun h => |h - p|)
          | none => some 0
        let s1 :=
          if oLt (some GUIDELINES.temp.delta) temp_delta then
            (s.1, s.2 ++ [Flag.tempDrift (temp_delta.getD 0)])
          else s
        if oLt (some GUIDELINES.rh.delta) rh_delta then
          (s1.1, s1.2 ++ [Flag.rhDrift (rh_delta.getD 0)])
        else s1
      else s
  | none => s

/-- The state of `classify` after the five if-blocks that precede the drift
block, starting from (`core`, no flags). -/
def preDriftState (row : Row) : RangeStatus × List Flag :=
  outsideRhStep row (outsideTempStep row (mouldStep row (rhStep row (tempStep row (.core, [])))))

/-- The inner `classify` closure of `evaluate_records` (src/app.py lines
765-806): starts at (`core`, no flags) and runs the six if-blocks in source
order. -/
def classify (row : Row) : RangeStatus × List Flag :=
  driftStep row (preDriftState row)

/-- Annotation of one record given the immediately preceding record of the
sorted frame: the group-by-location `shift(1)` yields the previous record's
values exactly when that record belongs to the same location, and
`delta_hours` is the timestamp difference in hours when both timestamps are
present. -/
def mkRow (m : Measurement) (p : Option Measurement) : Row :=
  let sameLoc : Option Measurement :=
    match p with
    | some q => if q.location = m.location then some q else none
    | none => none
  { toMeasurement := m
    prev_temp := match sameLoc with | some q => q.temp_c | none => none
    prev_rh := match sameLoc with | some q => q.rh | none => none
    prev_time := match sameLoc with | some q => q.datetime | none => none
    delta_hours :=
      match sameLoc, m.datetime with
      | some q, some t => (match q.datetime with | some pt => some (t - pt) | none => none)
      | _, _ => none }

/-- Walk the sorted record list carrying the previous element, producing the
shifted per-location columns of `evaluate_records`. -/
def annotate : Option Measurement → List Measurement → List Row
  | _, [] => []
  | p, m :: rest => mkRow m p :: annotate (some m) rest

/-- Timestamp comparison used by the sort: ascending with missing
timestamps (`NaT`) sorted last (pandas `na_position` is `last` by default). -/
def dtLe : Option ℚ → Option ℚ → Bool
  | some x, some y => decide (x ≤ y)
  | some _, none => true
  | none, some _ => false
  | none, none => true

/-- The sort key of `df.sort_values(["location", "datetime"])`: ascending by
location, ties broken by timestamp ascending. -/
def sortLe (a b : Measurement) : Bool :=
  if a.location = b.location then dtLe a.datetime b.datetime
  else decide (a.location < b.location)

/-- Attach the `range_status` and `flags` columns computed by `classify`. -/
def mkEval (r : Row) : EvaluatedRow :=
  { toRow := r, range_status := (classify r).1, flags := (classify r).2 }

/-- `evaluate_records` of `src/app.py` (lines 755-811): empty frame returned
unchanged; otherwise sort by (location, datetime), compute the per-location
shifted columns, and apply `classify` row-wise. -/
def evaluate_records (df : List Measurement) : List EvaluatedRow :=
  if df.isEmpty then []
  else (annotate none (df.mergeSort sortLe)).map mkEval

/-- Whether a flag is one of the two drift flags. -/
def isDriftFlag : Flag → Bool
  | .tempDrift _ => true
  | .rhDrift _ => true
  | _ => false

/-! Persistence reconciler.  The local cache file at `DATA_PATH` is modelled
by its observable read behaviour: absent, raising `EmptyDataError` (an empty
file), raising some other parse error (corrupt), or parsing to a list of
rows.  The remote Spaces object is modelled the same way through the outcome
of `load_data_from_spaces`.  CSV serialisation itself is kept abstract: a
written log reads back as the same list of measurements. -/

/-- Observable state of the local cache file at `DATA_PATH`. -/
inductive LocalCache where
  | missing
  | emptyFile
  | corrupt
  | stored (log : List Measurement)
deriving Repr, DecidableEq

/-- Observable state of the remote Spaces object, as seen by
`load_data_from_spaces`: object absent (`404`/`NoSuchKey`/`NotFound`),
transport/auth failure, body that fails to parse, or a stored log (possibly
empty, covering both an empty body and a header-only CSV). -/
inductive RemoteStore where
  | notFound
  | unreachable
  | malformed
  | stored (log : List Measurement)
deriving Repr, DecidableEq

/-- The world the reconciler acts on.  `syncEnabled` is
`spaces_client(...) is not None` (boto3 present and `spaces_enabled`), and
`pushOk` says whether a `put_object` call would succeed on the transport. -/
structure World where
  localCache : LocalCache
  remote : RemoteStore
  syncEnabled : Bool
  pushOk : Bool
deriving Repr, DecidableEq

/-- The local-read step of `load_data` (src/app.py lines 661-673).  Returns
the parsed local log, the local cache state after the step, whether the file
existed (`local_modified is not None`), and the warnings emitted.  An empty
file (`EmptyDataError`) is replaced by a freshly written empty log; any other
read failure only warns and leaves the file as it is. -/
def read_local (c : LocalCache) : List Measurement × LocalCache × Bool × List String :=
  match c with
  | .missing => ([], .missing, false, [])
  | .emptyFile => ([], .stored [], true, [])
  | .corrupt =>
      ([], .corrupt, true, ["Local CSV could not be read. Starting with an empty dataset."])
  | .stored log => (log, .stored log, true, [])

/-- Outcome of `load_data_from_spaces` (src/app.py lines 608-638): `none`
when sync is disabled, the object is absent, the transport fails, or the body
cannot be parsed; otherwise the remote log.  The second component is the
warnings emitted. -/
def load_data_from_spaces (w : World) : Option (List Measurement) × List String :=
  if !w.syncEnabled then (none, [])
  else
    match w.remote with
    | .notFound => (none, [])
    | .unreachable => (none, ["Unable to load CSV from DigitalOcean Spaces."])
    | .malformed => (none, ["Unable to parse CSV from DigitalOcean Spaces."])
    | .stored log => (some log, [])

/-- `save_data_to_spaces` (src/app.py lines 641-656): no-op returning `False`
when the client is unavailable; otherwise `put_object` the full log, and on a
transport failure catch the exception, warn, and return `False`. -/
def save_data_to_spaces (log : List Measurement) (w : World) : World × Bool × List String :=
  if !w.syncEnabled then (w, false, [])
  else if w.pushOk then ({ w with remote := .stored log }, true, [])
  else (w, false, ["Saved locally, but failed to upload CSV to DigitalOcean Spaces."])

/-- `load_data` (src/app.py lines 659-691): read the local cache, fetch the
remote log, and reconcile.  Returns the authoritative log, the world after
the call, and the warnings emitted. -/
def load_data (w : World) : List Measurement × World × List String :=
  let r := read_local w.localCache
  let local_df := r.1
  let localModified := r.2.2.1
  let w1 : World := { w with localCache := r.2.1 }
  let f := load_data_from_spaces w1
  match f.1 with
  | none =>
      if localModified && w1.syncEnabled then
        let p := save_data_to_spaces local_df w1
        (local_df, p.1, r.2.2.2 ++ f.2 ++ p.2.2)
      else (local_df, w1, r.2.2.2 ++ f.2)
  | some rlog =>
      if !rlog.isEmpty then
        (rlog, { w1 with localCache := .stored rlog }, r.2.2.2 ++ f.2)
      else if !local_df.isEmpty then
        let p := save_data_to_spaces local_df w1
        (local_df, p.1, r.2.2.2 ++ f.2 ++ p.2.2)
      else (rlog, w1, r.2.2.2 ++ f.2)

/-- `save_data` (src/app.py lines 694-698): write the full log to the local
cache, then best-effort push it to the remote store.  Returns the world after
the call and the warnings emitted; the function is total (a remote failure is
caught inside `save_data_to_spaces`, never raised). -/
def save_data (log : List Measurement) (w : World) : World × List String :=
  let w1 : World := { w with localCache := .stored log }
  let p := save_data_to_spaces log w1
  (p.1, p.2.2)

/-! Outside-conditions provider. -/

/-- The fields read out of the `current` block of the Open-Meteo response. -/
structure CurrentBlock where
  time : Option String
  temperature_2m : Option ℚ
  relative_humidity_2m : Option ℚ
  dew_point_2m : Option ℚ
deriving Repr, DecidableEq

/-- The decoded JSON document: `current` is `none` when the key is absent or
its value is falsy. -/
structure WeatherDoc where
  current : Option CurrentBlock
deriving Repr, DecidableEq

/-- An HTTP response from the weather source: a status code and a body.
`body = none` means the body is not valid JSON (`json.load` raises, and the
exception is caught by the surrounding handler). -/
structure RawResponse where
  status : Nat
  body : Option WeatherDoc
deriving Repr, DecidableEq

/-- Outcome of the network call: `failure` is any exception while opening the
URL or reading the response (timeout, connection error, and also the JSON
parse error, all caught by the same handler). -/
inductive NetResult where
  | failure
  | response (r : RawResponse)
deriving Repr, DecidableEq

/-- The snapshot dictionary returned by `fetch_outside_conditions`. -/
structure OutsideSnapshot where
  time : Option String
  temp_c : Option ℚ
  rh : Option ℚ
  dew_point_c : Option ℚ
deriving Repr, DecidableEq

/-- `fetch_outside_conditions` (src/app.py lines 728-752) as a function of
the network outcome: any exception gives `none`; a non-200 status gives
`none`; a body that is not JSON gives `none` (the parse error is caught); a
document without a truthy `current` block gives `none`; otherwise the
snapshot is built from the `current` fields. -/
def fetch_outside_conditions : NetResult → Option OutsideSnapshot
  | .failure => none
  | .response r =>
      if r.status ≠ 200 then none
      else
        match r.body with
        | none => none
        | some doc =>
            match doc.current with
            | none => none
            | some cur =>
                some { time := cur.time, temp_c := cur.temperature_2m,
                       rh := cur.relative_humidity_2m, dew_point_c := cur.dew_point_2m }

/-- A sample measurement used to exercise the definitions on concrete
inputs: a compliant Workroom reading with no outside snapshot. -/
def sampleMeasurement : Measurement :=
  { id := "m1", datetime := some 0, location := "Workroom",
    temp_c := some 20, rh := some 50, lux := none, uv := none, co2 := none,
    outside_time := none, outside_temp_c := none, outside_rh := none,
    outside_dew_point_c := none, notes := "" }

/-- The sample measurement annotated with no prior record. -/
def sampleRow : Row :=
  { toMeasurement := sampleMeasurement,
    prev_temp := none, prev_rh := none, prev_time := none, delta_hours := none }

/-! Shared lemmas about the classification pipeline. -/

theorem tempStep_mem {f : Flag} (row : Row) (s : RangeStatus × List Flag)
    (h : f ∈ s.2) : f ∈ (tempStep row s).2 := by
  unfold tempStep; split <;> simp [h]

theorem rhStep_mem {f : Flag} (row : Row) (s : RangeStatus × List Flag)
    (h : f ∈ s.2) : f ∈ (rhStep row s).2 := by
  unfold rhStep; split <;> [skip; exact h]
  split <;> simp [h]

theorem mouldStep_mem {f : Flag} (row : Row) (s : RangeStatus × List Flag)
    (h : f ∈ s.2) : f ∈ (mouldStep row s).2 := by
  unfold mouldStep; split <;> simp [h]

theorem outsideTempStep_mem {f : Flag} (row : Row) (s : RangeStatus × List Flag)
    (h : f ∈ s.2) : f ∈ (outsideTempStep row s).2 := by
  unfold outsideTempStep
  split
  · split <;> simp [h]
  · exact h

theorem outsideRhStep_mem {f : Flag} (row : Row) (s : RangeStatus × List Flag)
    (h : f ∈ s.2) : f ∈ (outsideRhStep row s).2 := by
  unfold outsideRhStep
  split
  · split <;> simp [h]
  · exact h

theorem driftStep_mem {f : Flag} (row : Row) (s : RangeStatus × List Flag)
    (h : f ∈ s.2) : f ∈ (driftStep row s).2 := by
  unfold driftStep
  split
  · split
    · dsimp only
      split_ifs <;> simp [h]
    · exact h
  · exact h

theorem mouldStep_fst (row : Row) (s : RangeStatus × List Flag) :
    (mouldStep row s).1 = s.1 := by
  unfold mouldStep; split <;> rfl

theorem outsideTempStep_fst (row : Row) (s : RangeStatus × List Flag) :
    (outsideTempStep row s).1 = s.1 := by
  unfold outsideTempStep
  split
  · split <;> rfl
  · rfl

theorem outsideRhStep_fst (row : Row) (s : RangeStatus × List Flag) :
    (outsideRhStep row s).1 = s.1 := by
  unfold outsideRhStep
  split
  · split <;> rfl
  · rfl

theorem driftStep_fst (row : Row) (s : RangeStatus × List Flag) :
    (driftStep row s).1 = s.1 := by
  unfold driftStep
  split
  · split
    · dsimp only
      split_ifs <;> rfl
    · rfl
  · rfl

theorem classify_fst (row : Row) :
    (classify row).1 = (rhStep row (tempStep row (.core, []))).1 := by
  unfold classify preDriftState
  rw [driftStep_fst, outsideRhStep_fst, outsideTempStep_fst, mouldStep_fst]

theorem mem_classify_of_pre {f : Flag} (row : Row)
    (h : f ∈ (preDriftState row).2) : f ∈ (classify row).2 :=
  driftStep_mem row _ h

theorem mem_classify_of_rhStep {f : Flag} (row : Row)
    (h : f ∈ (rhStep row (tempStep row (.core, []))).2) : f ∈ (classify row).2 :=
  mem_classify_of_pre row
    (outsideRhStep_mem row _ (outsideTempStep_mem row _ (mouldStep_mem row _ h)))

theorem tempStep_init (row : Row) :
    tempStep row (.core, []) =
      if tempOutCond row then (.out, [.tempOutOfRange]) else (.core, []) := by
  unfold tempStep; split <;> simp

theorem rhStep_outer (row : Row) (r : ℚ) (s : RangeStatus × List Flag)
    (hrh : row.rh = some r) (hout : r < 45 ∨ 55 < r) (h40 : 40 ≤ r) (h60 : r ≤ 60) :
    rhStep row s = (if s.1 ≠ .out then .outer else s.1, s.2 ++ [.rhOuterBand]) := by
  have hc : (oLt row.rh (some GUIDELINES.rh.core.1) || oLt (some GUIDELINES.rh.core.2) row.rh) = true := by
    simpa [oLt, hrh, GUIDELINES] using hout
  have ho : (oLe (some GUIDELINES.rh.outer.1) row.rh && oLe row.rh (some GUIDELINES.rh.outer.2)) = true := by
    simp [oLe, hrh, GUIDELINES]
    exact ⟨h40, h60⟩
  unfold rhStep
  rw [hc, ho]
  simp

theorem rhStep_out (row : Row) (r : ℚ) (s : RangeStatus × List Flag)
    (hrh : row.rh = some r) (hout : r < 45 ∨ 55 < r) (houter : ¬(40 ≤ r ∧ r ≤ 60)) :
    rhStep row s = (.out, s.2 ++ [.rhOutOfRange]) := by
  have hc : (oLt row.rh (some GUIDELINES.rh.core.1) || oLt (some GUIDELINES.rh.core.2) row.rh) = true := by
    simpa [oLt, hrh, GUIDELINES] using hout
  have ho : (oLe (some GUIDELINES.rh.outer.1) row.rh && oLe row.rh (some GUIDELINES.rh.outer.2)) = false := by
    rcases not_and_or.mp houter with h | h <;> simp [oLe, hrh, GUIDELINES, h]
  unfold rhStep
  rw [hc, ho]
  simp

theorem rhStep_skip (row : Row) (r : ℚ) (s : RangeStatus × List Flag)
    (hrh : row.rh = some r) (h45 : 45 ≤ r) (h55 : r ≤ 55) :
    rhStep row s = s := by
  have hc : (oLt row.rh (some GUIDELINES.rh.core.1) || oLt (some GUIDELINES.rh.core.2) row.rh) = false := by
    simp [oLt, hrh, GUIDELINES, not_lt]
    exact ⟨h45, h55⟩
  unfold rhStep
  rw [hc]
  simp

theorem rhStep_skip_none (row : Row) (s : RangeStatus × List Flag)
    (hrh : row.rh = none) : rhStep row s = s := by
  unfold rhStep
  simp [oLt, hrh]

theorem tempStep_skip (row : Row) (s : RangeStatus × List Flag)
    (h : tempOutCond row = false) : tempStep row s = s := by
  unfold tempStep
  rw [h]
  simp

theorem tempOutCond_false_of_core (row : Row) (t : ℚ)
    (ht : row.temp_c = some t) (h15 : 15 ≤ t) (h25 : t ≤ 25) :
    tempOutCond row = false := by
  simp [tempOutCond, oLt, ht, GUIDELINES, not_lt]
  exact ⟨h15, h25⟩

theorem tempOutCond_false_of_none (row : Row) (ht : row.temp_c = none) :
    tempOutCond row = false := by
  simp [tempOutCond, oLt, ht]

theorem mouldStep_adds (row : Row) (r : ℚ) (s : RangeStatus × List Flag)
    (hrh : row.rh = some r) (h70 : 70 ≤ r) :
    mouldStep row s = (s.1, s.2 ++ [.mouldRisk]) := by
  have h : oLe (some 70) row.rh = true := by simp [oLe, hrh, h70]
  unfold mouldStep
  rw [h]
  simp

theorem mouldStep_skip (row : Row) (r : ℚ) (s : RangeStatus × List Flag)
    (hrh : row.rh = some r) (h70 : r < 70) :
    mouldStep row s = s := by
  have h : oLe (some 70) row.rh = false := by simp [oLe, hrh, not_le, h70]
  unfold mouldStep
  rw [h]
  simp

theorem mouldStep_skip_none (row : Row) (s : RangeStatus × List Flag)
    (hrh : row.rh = none) : mouldStep row s = s := by
  unfold mouldStep
  simp [oLe, hrh]

theorem outsideTempStep_skip (row : Row) (s : RangeStatus × List Flag)
    (h : row.outside_temp_c = none) : outsideTempStep row s = s := by
  cases ht : row.temp_c <;> simp [outsideTempStep, h, ht]

theorem outsideTempStep_skip_temp_none (row : Row) (s : RangeStatus × List Flag)
    (h : row.temp_c = none) : outsideTempStep row s = s := by
  cases ho : row.outside_temp_c <;> simp [outsideTempStep, h, ho]

theorem outsideRhStep_skip (row : Row) (s : RangeStatus × List Flag)
    (h : row.outside_rh = none) : outsideRhStep row s = s := by
  cases ht : row.rh <;> simp [outsideRhStep, h, ht]

theorem outsideRhStep_skip_rh_none (row : Row) (s : RangeStatus × List Flag)
    (h : row.rh = none) : outsideRhStep row s = s := by
  cases ho : row.outside_rh <;> simp [outsideRhStep, h, ho]

theorem driftStep_none (row : Row) (s : RangeStatus × List Flag)
    (h : row.delta_hours = none) : driftStep row s = s := by
  unfold driftStep
  rw [h]

theorem driftStep_late (row : Row) (s : RangeStatus × List Flag) (d : ℚ)
    (h : row.delta_hours = some d) (h24 : ¬ d ≤ 24) : driftStep row s = s := by
  unfold driftStep
  rw [h]
  simp [h24]

theorem driftStep_adds_tempDrift (row : Row) (s : RangeStatus × List Flag)
    (d t p : ℚ) (hd : row.delta_hours = some d) (h24 : d ≤ 24)
    (ht : row.temp_c = some t) (hp : row.prev_temp = some p)
    (hgt : GUIDELINES.temp.delta < |t - p|) :
    Flag.tempDrift |t - p| ∈ (driftStep row s).2 := by
  unfold driftStep
  rw [hd]
  simp only [hp, ht, if_pos h24, Option.map_some']
  have hb : oLt (some GUIDELINES.temp.delta) (some |t - p|) = true := by
    simp [oLt, hgt]
  rw [hb]
  simp only [if_true]
  split <;> simp

theorem driftStep_adds_rhDrift (row : Row) (s : RangeStatus × List Flag)
    (d h p : ℚ) (hd : row.delta_hours = some d) (h24 : d ≤ 24)
    (hh : row.rh = some h) (hp : row.prev_rh = some p)
    (hgt : GUIDELINES.rh.delta < |h - p|) :
    Flag.rhDrift |h - p| ∈ (driftStep row s).2 := by
  unfold driftStep
  rw [hd]
  simp only [hp, hh, if_pos h24, Option.map_some']
  have hb : oLt (some GUIDELINES.rh.delta) (some |h - p|) = true := by
    simp [oLt, hgt]
  rw [hb]
  simp only [if_true]
  split <;> simp

theorem tempStep_nondrift {f : Flag} (row : Row) (s : RangeStatus × List Flag)
    (h : f ∈ (tempStep row s).2) : f ∈ s.2 ∨ isDriftFlag f = false := by
  unfold tempStep at h
  split at h
  · rcases List.mem_append.mp h with h1 | h1
    · exact Or.inl h1
    · simp at h1
      subst h1
      exact Or.inr rfl
  · exact Or.inl h

theorem rhStep_nondrift {f : Flag} (row : Row) (s : RangeStatus × List Flag)
    (h : f ∈ (rhStep row s).2) : f ∈ s.2 ∨ isDriftFlag f = false := by
  unfold rhStep at h
  split at h
  · split at h <;>
    · rcases List.mem_append.mp h with h1 | h1
      · exact Or.inl h1
      · simp at h1
        subst h1
        exact Or.inr rfl
  · exact Or.inl h

theorem mouldStep_nondrift {f : Flag} (row : Row) (s : RangeStatus × List Flag)
    (h : f ∈ (mouldStep row s).2) : f ∈ s.2 ∨ isDriftFlag f = false := by
  unfold mouldStep at h
  split at h
  · rcases List.mem_append.mp h with h1 | h1
    · exact Or.inl h1
    · simp at h1
      subst h1
      exact Or.inr rfl
  · exact Or.inl h

theorem outsideTempStep_nondrift {f : Flag} (row : Row) (s : RangeStatus × List Flag)
    (h : f ∈ (outsideTempStep row s).2) : f ∈ s.2 ∨ isDriftFlag f = false := by
  unfold outsideTempStep at h
  split at h
  · split at h
    · rcases List.mem_append.mp h with h1 | h1
      · exact Or.inl h1
      · simp at h1
        subst h1
        exact Or.inr rfl
    · exact Or.inl h
  · exact Or.inl h

theorem outsideRhStep_nondrift {f : Flag} (row : Row) (s : RangeStatus × List Flag)
    (h : f ∈ (outsideRhStep row s).2) : f ∈ s.2 ∨ isDriftFlag f = false := by
  unfold outsideRhStep at h
  split at h
  · split at h
    · rcases List.mem_append.mp h with h1 | h1
      · exact Or.inl h1
      · simp at h1
        subst h1
        exact Or.inr rfl
    · exact Or.inl h
  · exact Or.inl h

theorem preDrift_nondrift (row : Row) :
    ∀ f ∈ (preDriftState row).2, isDriftFlag f = false := by
  intro f h
  unfold preDriftState at h
  rcases outsideRhStep_nondrift row _ h with h | h
  · rcases outsideTempStep_nondrift row _ h with h | h
    · rcases mouldStep_nondrift row _ h with h | h
      · rcases rhStep_nondrift row _ h with h | h
        · rcases tempStep_nondrift row _ h with h | h
          · simp at h
          · exact h
        · exact h
      · exact h
    · exact h
  · exact h

theorem driftStep_skip_missing (row : Row) (s : RangeStatus × List Flag)
    (ht : row.temp_c = none) (hh : row.rh = none) : driftStep row s = s := by
  unfold driftStep
  cases hd : row.delta_hours with
  | none => rfl
  | some d =>
      cases hp : row.prev_temp <;> cases hq : row.prev_rh <;>
        norm_num [ht, hh, oLt, GUIDELINES]

theorem classify_missing (row : Row) (ht : row.temp_c = none) (hh : row.rh = none) :
    classify row = (.core, []) := by
  unfold classify preDriftState
  rw [tempStep_skip row _ (tempOutCond_false_of_none row ht),
      rhStep_skip_none row _ hh,
      mouldStep_skip_none row _ hh,
      outsideTempStep_skip_temp_none row _ ht,
      outsideRhStep_skip_rh_none row _ hh,
      driftStep_skip_missing row _ ht hh]

theorem mem_evaluate_records {df : List Measurement} {r : EvaluatedRow}
    (h : r ∈ evaluate_records df) :
    ∃ row ∈ annotate none (df.mergeSort sortLe), r = mkEval row := by
  unfold evaluate_records at h
  split at h
  · simp at h
  · obtain ⟨row, hrow, hr⟩ := List.mem_map.mp h
    exact ⟨row, hrow, hr.symm⟩

/-! Claim C1. -/

/-- C1: in the humidity classification step of `evaluate`, a record whose
relative humidity lies outside the core band [45,55] but within the outer
band [40,60] (boundaries inclusive at both ends) gets range status `outer`
unless the temperature check has already made it `out` (a temperature-out
record keeps status `out`), together with the flag "RH in outer band" of
severity warn; a record whose relative humidity lies outside the outer band
too gets range status `out` together with the flag "RH out of range" of
severity danger. -/
theorem humidity_band_classification (row : Row) (r : ℚ) (hrh : row.rh = some r)
    (hout : r < 45 ∨ 55 < r) :
    ((40 ≤ r ∧ r ≤ 60) →
      (classify row).1 = (if tempOutCond row then RangeStatus.out else RangeStatus.outer) ∧
      Flag.rhOuterBand ∈ (classify row).2 ∧ Flag.rhOuterBand.severity = Severity.warn) ∧
    (¬(40 ≤ r ∧ r ≤ 60) →
      (classify row).1 = RangeStatus.out ∧
      Flag.rhOutOfRange ∈ (classify row).2 ∧ Flag.rhOutOfRange.severity = Severity.danger) := by
  constructor
  · rintro ⟨h40, h60⟩
    have hs := rhStep_outer row r (tempStep row (.core, [])) hrh hout h40 h60
    refine ⟨?_, ?_, rfl⟩
    · rw [classify_fst, hs, tempStep_init]
      by_cases htc : tempOutCond row <;> simp [htc]
    · exact mem_classify_of_rhStep row (by rw [hs]; simp)
  · intro houter
    have hs := rhStep_out row r (tempStep row (.core, [])) hrh hout houter
    refine ⟨?_, ?_, rfl⟩
    · rw [classify_fst, hs]
    · exact mem_classify_of_rhStep row (by rw [hs]; simp)

/-- Witness for C1 at relative humidity 42 (outer band) and 35 (outside the
outer band) on an otherwise compliant row. -/
theorem humidity_band_classification_witness :
    (classify { sampleRow with rh := some 42 }).1 = RangeStatus.outer ∧
    Flag.rhOuterBand ∈ (classify { sampleRow with rh := some 42 }).2 ∧
    (classify { sampleRow with rh := some 35 }).1 = RangeStatus.out ∧
    Flag.rhOutOfRange ∈ (classify { sampleRow with rh := some 35 }).2 := by
  have h1 := (humidity_band_classification { sampleRow with rh := some 42 } 42 rfl
    (Or.inl (by norm_num))).1 ⟨by norm_num, by norm_num⟩
  have h2 := (humidity_band_classification { sampleRow with rh := some 35 } 35 rfl
    (Or.inl (by norm_num))).2 (by norm_num)
  refine ⟨?_, h1.2.1, h2.1, h2.2.1⟩
  rw [h1.1]
  decide

/-! Claim C7. -/

/-- C7: every record whose relative humidity is at least the mould-risk
threshold 70 gets the flag "Mould risk" of severity danger, independently of
its range status (no other field of the row is constrained). -/
theorem mould_risk_flag (row : Row) (r : ℚ) (hrh : row.rh = some r) (h70 : 70 ≤ r) :
    Flag.mouldRisk ∈ (classify row).2 ∧ Flag.mouldRisk.severity = Severity.danger := by
  refine ⟨?_, rfl⟩
  apply mem_classify_of_pre
  unfold preDriftState
  apply outsideRhStep_mem
  apply outsideTempStep_mem
  rw [mouldStep_adds row r (rhStep row (tempStep row (.core, []))) hrh h70]
  simp

/-- Witness for C7 at relative humidity 75 (which also makes the range
status `out`, showing independence from the status). -/
theorem mould_risk_flag_witness :
    Flag.mouldRisk ∈ (classify { sampleRow with rh := some 75 }).2 ∧
    (classify { sampleRow with rh := some 75 }).1 = RangeStatus.out := by
  have h := mould_risk_flag { sampleRow with rh := some 75 } 75 rfl (by norm_num)
  refine ⟨h.1, ?_⟩
  decide

/-! Claim C10. -/

/-- C10: a record whose `temp_c` and `relative_humidity_pct` are both missing
(for example after failed numeric parsing) is still classified by
`evaluate_records`: it gets range status `core` and none of the flags
"Temp out of range", "RH in outer band", "RH out of range" or "Mould risk" —
missing required readings silently pass as compliant. -/
theorem missing_readings_pass (df : List Measurement) (r : EvaluatedRow)
    (hr : r ∈ evaluate_records df) (ht : r.temp_c = none) (hh : r.rh = none) :
    r.range_status = RangeStatus.core ∧
    Flag.tempOutOfRange ∉ r.flags ∧ Flag.rhOuterBand ∉ r.flags ∧
    Flag.rhOutOfRange ∉ r.flags ∧ Flag.mouldRisk ∉ r.flags := by
  obtain ⟨row, hrow, rfl⟩ := mem_evaluate_records hr
  have hc : classify row = (.core, []) := classify_missing row ht hh
  refine ⟨?_, ?_, ?_, ?_, ?_⟩ <;> simp [mkEval, hc]

/-- Witness for C10: a single-record log whose readings both failed to
parse evaluates to status `core` with no mould-risk flag. -/
theorem missing_readings_pass_witness :
    (mkEval (mkRow { sampleMeasurement with temp_c := none, rh := none } none)).range_status
        = RangeStatus.core ∧
    Flag.mouldRisk ∉
      (mkEval (mkRow { sampleMeasurement with temp_c := none, rh := none } none)).flags := by
  have h := missing_readings_pass [{ sampleMeasurement with temp_c := none, rh := none }]
    (mkEval (mkRow { sampleMeasurement with temp_c := none, rh := none } none))
    (by simp [evaluate_records, List.mergeSort_singleton, annotate]) rfl rfl
  exact ⟨h.1, h.2.2.2.2⟩

/-! Lemmas about the per-location annotation pass. -/

theorem annotate_base (p : Option Measurement) (l : List Measurement) :
    (annotate p l).map (fun r => r.toMeasurement) = l := by
  induction l generalizing p with
  | nil => rfl
  | cons m rest ih =>
      simp only [annotate, List.map_cons, ih]
      rfl

theorem base_mem_annotate {p : Option Measurement} {l : List Measurement} {row : Row}
    (h : row ∈ annotate p l) : row.toMeasurement ∈ l := by
  have hm := List.mem_map_of_mem (fun r => r.toMeasurement) h
  rwa [annotate_base] at hm

theorem annotate_no_prior {l : List Measurement} {row : Row} :
    ∀ {p : Option Measurement}, row ∈ annotate p l →
    (l.filter (fun x => x.location == row.location)).length ≤ 1 →
    (∀ q, p = some q → q.location ≠ row.location) →
    row.prev_temp = none ∧ row.prev_rh = none ∧ row.prev_time = none ∧
      row.delta_hours = none := by
  induction l with
  | nil => intro p h; simp [annotate] at h
  | cons m rest ih =>
      intro p h hcount hp
      rcases (by simpa [annotate] using h :
          row = mkRow m p ∨ row ∈ annotate (some m) rest) with hrow | hrow
      · subst hrow
        cases p with
        | none => exact ⟨rfl, rfl, rfl, rfl⟩
        | some q =>
            have hne : q.location ≠ m.location := hp q rfl
            simp [mkRow, hne]
      · have hmem : row.toMeasurement ∈ rest := base_mem_annotate hrow
        have hloc : m.location ≠ row.location := by
          intro he
          have h1 : row.toMeasurement ∈ rest.filter (fun x => x.location == row.location) := by
            simp [List.mem_filter, hmem]
          have h2 : 0 < (rest.filter (fun x => x.location == row.location)).length :=
            List.length_pos.mpr (List.ne_nil_of_mem h1)
          have h3 : (List.filter (fun x => x.location == row.location) (m :: rest)).length
              = (rest.filter (fun x => x.location == row.location)).length + 1 := by
            simp [List.filter_cons, he]
          omega
        have hb : (m.location == row.location) = false := by
          simpa using hloc
        have hcount' :
            (rest.filter (fun x => x.location == row.location)).length ≤ 1 := by
          have h3 : List.filter (fun x => x.location == row.location) (m :: rest)
              = List.filter (fun x => x.location == row.location) rest := by
            simp [List.filter_cons, hb]
          rw [h3] at hcount
          exact hcount
        exact ih hrow hcount' (by intro q hq he; cases hq; exact hloc he)

theorem sole_location_no_prior {df : List Measurement} {row : Row}
    (hrow : row ∈ annotate none (df.mergeSort sortLe))
    (hcount : (df.filter (fun x => x.location == row.location)).length = 1) :
    row.prev_temp = none ∧ row.prev_rh = none ∧ row.prev_time = none ∧
      row.delta_hours = none := by
  apply annotate_no_prior hrow
  · have hperm := (List.mergeSort_perm df sortLe).filter (fun x => x.location == row.location)
    rw [hperm.length_eq, hcount]
  · intro q hq
    exact Option.noConfusion hq

theorem driftStep_no_tempDrift_of_prev_none (row : Row) (s : RangeStatus × List Flag)
    (hp : row.prev_temp = none) (q : ℚ)
    (hq : Flag.tempDrift q ∉ s.2) : Flag.tempDrift q ∉ (driftStep row s).2 := by
  unfold driftStep
  cases hd : row.delta_hours with
  | none => exact hq
  | some d =>
      simp only [hp]
      split
      · have h0 : oLt (some GUIDELINES.temp.delta) (some 0) = false := by
          norm_num [oLt, GUIDELINES]
        rw [h0]
        simp only [Bool.false_eq_true, if_false]
        split <;> simp [hq]
      · exact hq

theorem no_tempDrift_pre (row : Row) (q : ℚ) :
    Flag.tempDrift q ∉ (preDriftState row).2 := by
  intro hmem
  have := preDrift_nondrift row _ hmem
  simp [isDriftFlag] at this

/-! Claim C2. -/

/-- C2: drift flagging.  When `delta_hours_since_prior` is defined and at
most 24 (boundary inclusive), a temperature change above the drift limit 4
yields the warn flag "Temp drift {value} C/24h" with the absolute change as
value, and analogously a humidity change above 5 yields "RH drift"; a missing
prior temperature is treated as zero change, so it never produces a
temperature drift flag; and a record with no prior (undefined delta), a prior
more than 24 hours earlier, or that is the only record of its location never
receives a drift flag. -/
theorem drift_flag_spec :
    (∀ (row : Row) (d t p : ℚ), row.delta_hours = some d → d ≤ 24 →
      row.temp_c = some t → row.prev_temp = some p → 4 < |t - p| →
      Flag.tempDrift |t - p| ∈ (classify row).2 ∧
        (Flag.tempDrift |t - p|).severity = Severity.warn) ∧
    (∀ (row : Row) (d h p : ℚ), row.delta_hours = some d → d ≤ 24 →
      row.rh = some h → row.prev_rh = some p → 5 < |h - p| →
      Flag.rhDrift |h - p| ∈ (classify row).2 ∧
        (Flag.rhDrift |h - p|).severity = Severity.warn) ∧
    (∀ (row : Row) (d : ℚ) (q : ℚ), row.delta_hours = some d → d ≤ 24 →
      row.prev_temp = none → Flag.tempDrift q ∉ (classify row).2) ∧
    (∀ row : Row, row.delta_hours = none →
      ∀ f ∈ (classify row).2, isDriftFlag f = false) ∧
    (∀ (row : Row) (d : ℚ), row.delta_hours = some d → 24 < d →
      ∀ f ∈ (classify row).2, isDriftFlag f = false) ∧
    (∀ (df : List Measurement) (r : EvaluatedRow), r ∈ evaluate_records df →
      (df.filter (fun x => x.location == r.location)).length = 1 →
      ∀ f ∈ r.flags, isDriftFlag f = false) := by
  have hnone : ∀ row : Row, row.delta_hours = none →
      ∀ f ∈ (classify row).2, isDriftFlag f = false := by
    intro row hd f hf
    unfold classify at hf
    rw [driftStep_none row _ hd] at hf
    exact preDrift_nondrift row f hf
  refine ⟨?_, ?_, ?_, hnone, ?_, ?_⟩
  · intro row d t p hd h24 ht hp hgt
    exact ⟨driftStep_adds_tempDrift row (preDriftState row) d t p hd h24 ht hp hgt, rfl⟩
  · intro row d h p hd h24 hh hp hgt
    exact ⟨driftStep_adds_rhDrift row (preDriftState row) d h p hd h24 hh hp hgt, rfl⟩
  · intro row d q hd h24 hp
    exact driftStep_no_tempDrift_of_prev_none row (preDriftState row) hp q
      (no_tempDrift_pre row q)
  · intro row d hd h24 f hf
    unfold classify at hf
    rw [driftStep_late row _ d hd (not_le.mpr h24)] at hf
    exact preDrift_nondrift row f hf
  · intro df r hr hcount f hf
    obtain ⟨row, hrow, rfl⟩ := mem_evaluate_records hr
    obtain ⟨-, -, -, hd⟩ := sole_location_no_prior hrow hcount
    exact hnone row hd f hf

/-- Witness for C2: two same-location readings one hour apart with
temperatures 20 then 25 produce the flag "Temp drift 5.0 C/24h" on the later
row; with the pair 30 hours apart no drift flag appears. -/
theorem drift_flag_spec_witness :
    Flag.tempDrift 5 ∈ (classify { sampleRow with temp_c := some 25, prev_temp := some 20, prev_time := some 0, delta_hours := some 1 }).2 ∧
    (∀ f ∈ (classify { sampleRow with temp_c := some 25, prev_temp := some 20, prev_time := some 0, delta_hours := some 30 }).2,
      isDriftFlag f = false) := by
  constructor
  · have h := (drift_flag_spec.1 { sampleRow with temp_c := some 25, prev_temp := some 20, prev_time := some 0, delta_hours := some 1 } 1 25 20 rfl (by norm_num) rfl rfl (by norm_num)).1
    have he : |(25 : ℚ) - 20| = 5 := by norm_num
    rwa [he] at h
  · exact drift_flag_spec.2.2.2.2.1 { sampleRow with temp_c := some 25, prev_temp := some 20, prev_time := some 0, delta_hours := some 30 } 30 rfl (by norm_num)

theorem classify_stable (row : Row) (t h : ℚ)
    (ht : row.temp_c = some t) (h15 : 15 ≤ t) (h25 : t ≤ 25)
    (hh : row.rh = some h) (h45 : 45 ≤ h) (h55 : h ≤ 55)
    (hot : row.outside_temp_c = none) (hor : row.outside_rh = none)
    (hd : row.delta_hours = none) :
    classify row = (.core, []) := by
  unfold classify preDriftState
  rw [tempStep_skip row _ (tempOutCond_false_of_core row t ht h15 h25),
      rhStep_skip row h _ hh h45 h55,
      mouldStep_skip row h _ hh (lt_of_le_of_lt h55 (by norm_num)),
      outsideTempStep_skip row _ hot,
      outsideRhStep_skip row _ hor,
      driftStep_none row _ hd]

/-! Claim C8. -/

/-- C8: a measurement with temperature in [15,25] and relative humidity in
[45,55], no outside snapshot, and no prior record in its location is assigned
range status `core` and an empty flag list by `evaluate_records`.  The first
statement takes "no prior" as the record's derived prior columns being
undefined (which is what the per-location shift produces for the first record
of a partition); the second derives it for a record that is the only one of
its location in the input. -/
theorem compliant_record_core :
    (∀ (df : List Measurement) (r : EvaluatedRow) (t h : ℚ),
      r ∈ evaluate_records df →
      r.prev_temp = none → r.prev_rh = none → r.prev_time = none →
      r.delta_hours = none →
      r.temp_c = some t → 15 ≤ t → t ≤ 25 →
      r.rh = some h → 45 ≤ h → h ≤ 55 →
      r.outside_temp_c = none → r.outside_rh = none →
      r.range_status = RangeStatus.core ∧ r.flags = []) ∧
    (∀ (df : List Measurement) (r : EvaluatedRow) (t h : ℚ),
      r ∈ evaluate_records df →
      (df.filter (fun x => x.location == r.location)).length = 1 →
      r.temp_c = some t → 15 ≤ t → t ≤ 25 →
      r.rh = some h → 45 ≤ h → h ≤ 55 →
      r.outside_temp_c = none → r.outside_rh = none →
      r.range_status = RangeStatus.core ∧ r.flags = []) := by
  constructor
  · intro df r t h hr hpt hpr hptime hd ht h15 h25 hh h45 h55 hot hor
    obtain ⟨row, hrow, rfl⟩ := mem_evaluate_records hr
    have hc := classify_stable row t h ht h15 h25 hh h45 h55 hot hor hd
    constructor <;> simp [mkEval, hc]
  · intro df r t h hr hcount ht h15 h25 hh h45 h55 hot hor
    obtain ⟨row, hrow, rfl⟩ := mem_evaluate_records hr
    obtain ⟨-, -, -, hd⟩ := sole_location_no_prior hrow hcount
    have hc := classify_stable row t h ht h15 h25 hh h45 h55 hot hor hd
    constructor <;> simp [mkEval, hc]

/-- Witness for C8: a single compliant Workroom reading evaluates to status
`core` with an empty flag list. -/
theorem compliant_record_core_witness :
    (mkEval (mkRow sampleMeasurement none)).range_status = RangeStatus.core ∧
    (mkEval (mkRow sampleMeasurement none)).flags = [] := by
  exact compliant_record_core.2 [sampleMeasurement] (mkEval (mkRow sampleMeasurement none))
    20 50 (by simp [evaluate_records, List.mergeSort_singleton, annotate])
    (by decide) rfl (by norm_num) (by norm_num) rfl (by norm_num) (by norm_num) rfl rfl

theorem evaluate_map_base (df : List Measurement) :
    (evaluate_records df).map (fun r => r.toMeasurement) = df.mergeSort sortLe := by
  unfold evaluate_records
  split
  · have hdf : df = [] := by simp_all [List.isEmpty_iff]
    subst hdf
    simp
  · rw [List.map_map]
    have hc : ((fun r : EvaluatedRow => r.toMeasurement) ∘ mkEval)
        = (fun r : Row => r.toMeasurement) := rfl
    rw [hc, annotate_base]

theorem dtLe_trans : ∀ {a b c : Option ℚ}, dtLe a b = true → dtLe b c = true → dtLe a c = true := by
  intro a b c h1 h2
  match a, b, c with
  | some x, some y, some z =>
      simp [dtLe] at h1 h2 ⊢
      exact le_trans h1 h2
  | some x, some y, none => rfl
  | some x, none, some z => simp [dtLe] at h2
  | some x, none, none => rfl
  | none, some y, _ => simp [dtLe] at h1
  | none, none, some z => simp [dtLe] at h2
  | none, none, none => rfl

theorem dtLe_total : ∀ (a b : Option ℚ), dtLe a b || dtLe b a := by
  intro a b
  match a, b with
  | some x, some y => simpa [dtLe] using le_total x y
  | some x, none => simp [dtLe]
  | none, some y => simp [dtLe]
  | none, none => rfl

theorem sortLe_trans : ∀ (a b c : Measurement), sortLe a b → sortLe b c → sortLe a c := by
  intro a b c h1 h2
  unfold sortLe at h1 h2 ⊢
  by_cases e1 : a.location = b.location <;> by_cases e2 : b.location = c.location
  · rw [if_pos e1] at h1
    rw [if_pos e2] at h2
    rw [if_pos (e1.trans e2)]
    exact dtLe_trans h1 h2
  · rw [if_neg e2] at h2
    have hlt : b.location < c.location := by simpa using h2
    have hac : a.location < c.location := by rw [e1]; exact hlt
    rw [if_neg (ne_of_lt hac)]
    simpa using hac
  · rw [if_neg e1] at h1
    have hlt : a.location < b.location := by simpa using h1
    have hac : a.location < c.location := by rw [← e2]; exact hlt
    rw [if_neg (ne_of_lt hac)]
    simpa using hac
  · rw [if_neg e1] at h1
    rw [if_neg e2] at h2
    have hac : a.location < c.location :=
      lt_trans (by simpa using h1) (by simpa using h2)
    rw [if_neg (ne_of_lt hac)]
    simpa using hac

theorem sortLe_total : ∀ (a b : Measurement), sortLe a b || sortLe b a := by
  intro a b
  unfold sortLe
  by_cases e : a.location = b.location
  · rw [if_pos e, if_pos e.symm]
    exact dtLe_total _ _
  · rw [if_neg e, if_neg (fun h => e h.symm)]
    rcases lt_trichotomy a.location b.location with h | h | h
    · simp [h]
    · exact absurd h e
    · simp [h]

/-! Claim C9. -/

/-- C9: `evaluate_records` returns exactly one output record per input
record — the projection of the output to the original measurement fields is a
permutation of the input, so nothing is dropped, duplicated or modified — it
only adds the derived columns (`range_status` and `flags` are exactly the
row-wise `classify` results), and the output is ordered ascending by
(location, timestamp) rather than input order. -/
theorem evaluate_records_frame (df : List Measurement) :
    ((evaluate_records df).map (fun r => r.toMeasurement)).Perm df ∧
    (evaluate_records df).length = df.length ∧
    List.Pairwise (fun a b => sortLe a b = true)
      ((evaluate_records df).map (fun r => r.toMeasurement)) ∧
    ∀ r ∈ evaluate_records df,
      r.range_status = (classify r.toRow).1 ∧ r.flags = (classify r.toRow).2 := by
  have hbase := evaluate_map_base df
  have hperm : ((evaluate_records df).map (fun r => r.toMeasurement)).Perm df := by
    rw [hbase]
    exact List.mergeSort_perm df sortLe
  refine ⟨hperm, ?_, ?_, ?_⟩
  · have hl := hperm.length_eq
    simpa using hl
  · rw [hbase]
    exact List.sorted_mergeSort sortLe_trans sortLe_total df
  · intro r hr
    obtain ⟨row, hrow, rfl⟩ := mem_evaluate_records hr
    exact ⟨rfl, rfl⟩

/-! Claim C3. -/

/-- C3: whenever remote sync is enabled and the load fetches a reachable,
non-empty remote log, `load_data` overwrites the local cache with the remote
content and returns the remote log, regardless of the local log's contents
(the hypothesis places no constraint on the local cache state). -/
theorem load_remote_wins (w : World) (log : List Measurement)
    (hsync : w.syncEnabled = true) (hrem : w.remote = .stored log) (hne : log ≠ []) :
    (load_data w).1 = log ∧ ((load_data w).2.1).localCache = .stored log := by
  have hie : log.isEmpty = false := by
    cases log with
    | nil => exact absurd rfl hne
    | cons a l => rfl
  cases hc : w.localCache <;>
    simp [load_data, read_local, load_data_from_spaces, save_data_to_spaces,
      hsync, hrem, hc, hie]

/-- Witness for C3: local cache holds an empty log, remote holds one row;
load returns the remote row and overwrites the local cache with it. -/
theorem load_remote_wins_witness :
    (load_data ⟨.stored [], .stored [sampleMeasurement], true, true⟩).1 = [sampleMeasurement] ∧
    ((load_data ⟨.stored [], .stored [sampleMeasurement], true, true⟩).2.1).localCache
      = .stored [sampleMeasurement] := by
  exact load_remote_wins ⟨.stored [], .stored [sampleMeasurement], true, true⟩
    [sampleMeasurement] rfl rfl (by simp)

/-! Claim C4. -/

/-- C4: `save_data` writes the full log to the local cache first and the
local write is never rolled back: for every outcome of the remote push the
local cache afterwards holds the new full log; a failing push (sync enabled,
transport failing) leaves the remote store untouched and only emits the
"saved locally" warning, while a successful push stores the log remotely with
no warning.  `save_data` is a total function: the push failure is caught
inside `save_data_to_spaces`, no exception reaches the caller. -/
theorem save_data_local_first (log : List Measurement) (w : World) :
    ((save_data log w).1).localCache = .stored log ∧
    (w.syncEnabled = true → w.pushOk = false →
      ((save_data log w).1).remote = w.remote ∧
      (save_data log w).2 =
        ["Saved locally, but failed to upload CSV to DigitalOcean Spaces."]) ∧
    (w.syncEnabled = true → w.pushOk = true →
      ((save_data log w).1).remote = .stored log ∧ (save_data log w).2 = []) := by
  refine ⟨?_, ?_, ?_⟩ <;>
    cases hs : w.syncEnabled <;> cases hp : w.pushOk <;>
      simp [save_data, save_data_to_spaces, hs, hp]

/-- Witness for C4: a failing push (sync enabled, transport down) still
leaves the new log in the local cache, the remote untouched, and only the
warning emitted. -/
theorem save_data_local_first_witness :
    ((save_data [sampleMeasurement] ⟨.missing, .notFound, true, false⟩).1).localCache
      = .stored [sampleMeasurement] ∧
    ((save_data [sampleMeasurement] ⟨.missing, .notFound, true, false⟩).1).remote
      = .notFound ∧
    (save_data [sampleMeasurement] ⟨.missing, .notFound, true, false⟩).2
      = ["Saved locally, but failed to upload CSV to DigitalOcean Spaces."] := by
  have h := save_data_local_first [sampleMeasurement] ⟨.missing, .notFound, true, false⟩
  exact ⟨h.1, (h.2.1 rfl rfl).1, (h.2.1 rfl rfl).2⟩

/-! Claim C5. -/

/-- C5: `fetch_outside_conditions` returns `none` rather than raising on
every failure mode: a network exception (timeout included), a non-success
HTTP status, a malformed (non-JSON) payload, and a payload whose
current-conditions block is absent. -/
theorem fetch_outside_none_on_failure :
    fetch_outside_conditions .failure = none ∧
    (∀ r : RawResponse, r.status ≠ 200 → fetch_outside_conditions (.response r) = none) ∧
    (∀ s : Nat, fetch_outside_conditions (.response ⟨s, none⟩) = none) ∧
    (∀ (s : Nat) (doc : WeatherDoc), doc.current = none →
      fetch_outside_conditions (.response ⟨s, some doc⟩) = none) := by
  refine ⟨rfl, ?_, ?_, ?_⟩
  · intro r h
    simp [fetch_outside_conditions, h]
  · intro s
    by_cases h : s = 200 <;> simp [fetch_outside_conditions, h]
  · intro s doc hc
    by_cases h : s = 200 <;> simp [fetch_outside_conditions, h, hc]

/-- Witness for C5: a 500 status with a well-formed body, a 200 status with
a malformed body, and a 200 status whose payload has no current block all
yield `none`. -/
theorem fetch_outside_none_on_failure_witness :
    fetch_outside_conditions (.response ⟨500, some ⟨some ⟨some "t", some 10, some 50, some 2⟩⟩⟩) = none ∧
    fetch_outside_conditions (.response ⟨200, none⟩) = none ∧
    fetch_outside_conditions (.response ⟨200, some ⟨none⟩⟩) = none := by
  exact ⟨fetch_outside_none_on_failure.2.1 _ (by norm_num),
    fetch_outside_none_on_failure.2.2.1 200,
    fetch_outside_none_on_failure.2.2.2 200 ⟨none⟩ rfl⟩

/-! Claim C6. -/

/-- C6 counterexample: with a corrupt local cache (a read failure other than
an empty file) and sync disabled, `load_data` returns the empty log but does
not rewrite the local cache with an empty log — the file stays corrupt,
contrary to the claim that any unreadable/corrupt cache is rewritten. -/
theorem load_corrupt_no_rewrite :
    (load_data ⟨.corrupt, .notFound, false, true⟩).1 = [] ∧
    ((load_data ⟨.corrupt, .notFound, false, true⟩).2.1).localCache = .corrupt ∧
    ((load_data ⟨.corrupt, .notFound, false, true⟩).2.1).localCache ≠ .stored [] := by
  refine ⟨rfl, rfl, ?_⟩
  decide

/-- C6 amended: when the local cache is an empty file (`EmptyDataError`)
`load_data` treats it as empty and rewrites the cache with an empty log; when
it is otherwise unreadable/corrupt, `load_data` treats the local log as empty
and returns a well-defined result with a warning, but leaves the cache file
unchanged (stated with sync disabled so the remote cannot overwrite the
cache afterwards). -/
theorem load_local_read_degrades (w : World) (hs : w.syncEnabled = false) :
    (w.localCache = .corrupt →
      (load_data w).1 = [] ∧ ((load_data w).2.1).localCache = .corrupt ∧
      (load_data w).2.2
        = ["Local CSV could not be read. Starting with an empty dataset."]) ∧
    (w.localCache = .emptyFile →
      (load_data w).1 = [] ∧ ((load_data w).2.1).localCache = .stored []) := by
  constructor <;> intro hc <;>
    simp [load_data, read_local, load_data_from_spaces, hs, hc]

/-- Witness for C6 amended: both cases at concrete worlds. -/
theorem load_local_read_degrades_witness :
    ((load_data ⟨.emptyFile, .notFound, false, true⟩).2.1).localCache = .stored [] ∧
    ((load_data ⟨.corrupt, .unreachable, false, true⟩).2.1).localCache = .corrupt := by
  exact ⟨((load_local_read_degrades ⟨.emptyFile, .notFound, false, true⟩ rfl).2 rfl).2,
    ((load_local_read_degrades ⟨.corrupt, .unreachable, false, true⟩ rfl).1 rfl).2.1⟩

end EnvMonitor
